import Mathlib

/-!
Verification of the hook utility modules of the coach multi-agent-observability
plugin: the tool-use validator (`hooks/scripts/utils/validation.py`), the event
client (`hooks/scripts/utils/server.py`) and the session-id helper
(`hooks/scripts/utils/source_app.py`).

Strings are modelled as Lean `String` / `List Char`.  The Python regular
expressions used by the validator fall into a tiny fragment — literal
characters, the class `\s+`, the escape `\.`, and the end anchor `$` — so each
pattern is embedded by a dedicated matcher for its shape.  Case folding
(`re.IGNORECASE`) and whitespace are modelled at the ASCII level, which is the
range exercised by every pattern in the source.
-/

namespace Coach

/-- ASCII lowercasing of one character (the folding `re.IGNORECASE` performs on
the ASCII letters occurring in the source patterns). -/
def lowerChar (c : Char) : Char :=
  if 'A' ≤ c ∧ c ≤ 'Z' then Char.ofNat (c.toNat + 32) else c

/-- Python `\s` on ASCII: space, tab, newline, vertical tab, form feed,
carriage return. -/
def isPySpace (c : Char) : Bool :=
  c = ' ' || c = '\t' || c = '\n' || c = '\x0b' || c = '\x0c' || c = '\r'

/-- ASCII lowercasing of a character list. -/
def lowerStr (s : List Char) : List Char := s.map lowerChar

/-- `pat` occurs at the head of `s` (exact characters). -/
def prefixMatch : List Char → List Char → Bool
  | [], _ => true
  | _ :: _, [] => false
  | p :: ps, c :: cs => p = c && prefixMatch ps cs

/-- `pat` occurs somewhere in `s` (exact characters): the semantics of
`re.search` on a pattern consisting only of literal characters. -/
def containsSub (pat : List Char) : List Char → Bool
  | [] => prefixMatch pat []
  | c :: cs => prefixMatch pat (c :: cs) || containsSub pat cs

/-- `pat` occurs at the end of `s` (exact characters). -/
def suffixMatch (pat s : List Char) : Bool :=
  prefixMatch pat.reverse s.reverse

/-- Consume the literal characters `pat` from the head of `s`, comparing
case-insensitively (pattern characters are stored lowercase); return the rest. -/
def eatLitsCI : List Char → List Char → Option (List Char)
  | [], s => some s
  | _ :: _, [] => none
  | p :: ps, c :: cs => if p = lowerChar c then eatLitsCI ps cs else none

/-- Consume `\s+` from the head of `s`.  In every source pattern the character
following `\s+` is never itself whitespace, so a match exists iff the first
character is whitespace; dropping the maximal whitespace run is then
equivalent to trying every split. -/
def eatWs1 : List Char → Option (List Char)
  | [] => none
  | c :: cs => if isPySpace c then some (cs.dropWhile isPySpace) else none

/-- Does the regex `rm\s+-<flag>\s+<tgt>` (with `re.IGNORECASE`) match at the
head of `s`?  `flag` is `rf` or `fr`; `tgt` is the literal target (`/`, `~`,
`*`, or `..`). -/
def rmPatAt (flag tgt : List Char) (s : List Char) : Bool :=
  match eatLitsCI [ 'r', 'm' ] s with
  | none => false
  | some s1 =>
    match eatWs1 s1 with
    | none => false
    | some s2 =>
      match eatLitsCI ('-' :: flag) s2 with
      | none => false
      | some s3 =>
        match eatWs1 s3 with
        | none => false
        | some s4 => (eatLitsCI tgt s4).isSome

/-- `re.search` of the regex `rm\s+-<flag>\s+<tgt>` with `re.IGNORECASE`:
try every start position. -/
def rmPatSearch (flag tgt : List Char) : List Char → Bool
  | [] => rmPatAt flag tgt []
  | c :: cs => rmPatAt flag tgt (c :: cs) || rmPatSearch flag tgt cs

/-- A pattern built from literal characters only, either anchored at the end
(`lit$`) or unanchored (`lit`). -/
inductive LitPat where
  | anchored : List Char → LitPat
  | sub : List Char → LitPat
deriving DecidableEq

/-- `re.search` of a `LitPat` with `re.IGNORECASE` (pattern stored lowercase).
Python `$` (without `re.MULTILINE`) matches at the end of the string or just
before a trailing newline. -/
def litPatSearchCI : LitPat → List Char → Bool
  | .anchored lit, s =>
    suffixMatch lit (lowerStr s) || suffixMatch (lit ++ [ '\n' ]) (lowerStr s)
  | .sub lit, s => containsSub lit (lowerStr s)

/-- Python `str.strip()` restricted to ASCII whitespace. -/
def stripStr (s : String) : List Char :=
  ((s.data.dropWhile isPySpace).reverse.dropWhile isPySpace).reverse

/-! ## `utils/validation.py` -/

/-- One entry of `DANGEROUS_RM_PATTERNS`: the regex source text, the flag
letters after the dash, and the literal target characters. -/
structure RmPattern where
  src : String
  flag : List Char
  tgt : List Char
deriving DecidableEq

/-- The eight dangerous-deletion regexes of the source, in order. -/
def DANGEROUS_RM_PATTERNS : List RmPattern :=
  [ ⟨"rm\\s+-rf\\s+/", [ 'r', 'f' ], [ '/' ]⟩,
    ⟨"rm\\s+-rf\\s+~", [ 'r', 'f' ], [ '~' ]⟩,
    ⟨"rm\\s+-rf\\s+\\*", [ 'r', 'f' ], [ '*' ]⟩,
    ⟨"rm\\s+-rf\\s+\\.\\.", [ 'r', 'f' ], [ '.', '.' ]⟩,
    ⟨"rm\\s+-fr\\s+/", [ 'f', 'r' ], [ '/' ]⟩,
    ⟨"rm\\s+-fr\\s+~", [ 'f', 'r' ], [ '~' ]⟩,
    ⟨"rm\\s+-fr\\s+\\*", [ 'f', 'r' ], [ '*' ]⟩,
    ⟨"rm\\s+-fr\\s+\\.\\.", [ 'f', 'r' ], [ '.', '.' ]⟩ ]

/-- `re.search(p, command, re.IGNORECASE)` for one dangerous pattern. -/
def rmPatMatches (p : RmPattern) (command : String) : Bool :=
  rmPatSearch p.flag p.tgt command.data

/-- `SAFE_RM_DIRECTORIES`: the regexes are literal strings (after `\.`), and
they are searched without `re.IGNORECASE`, i.e. case-sensitively. -/
def SAFE_RM_DIRECTORIES : List (List Char) :=
  [ "/tmp/".data, "/var/tmp/".data, "trees/".data, ".cache/".data,
    "node_modules/".data, "__pycache__/".data, ".pytest_cache/".data,
    "dist/".data, "build/".data ]

/-- `SENSITIVE_FILE_PATTERNS`, in order (patterns stored lowercase; they are
searched with `re.IGNORECASE`). -/
def SENSITIVE_FILE_PATTERNS : List LitPat :=
  [ .anchored ".env".data, .anchored ".env.local".data,
    .anchored ".env.production".data, .anchored "credentials.json".data,
    .anchored "secrets.json".data, .anchored ".pem".data,
    .anchored ".key".data, .sub "id_rsa".data, .sub "id_ed25519".data ]

/-- `ALLOWED_SENSITIVE_PATTERNS`, in order. -/
def ALLOWED_SENSITIVE_PATTERNS : List LitPat :=
  [ .anchored ".env.sample".data, .anchored ".env.example".data,
    .anchored ".env.template".data ]

/-- The reason string `f"Dangerous rm command detected: matches pattern
'{pattern}'"`. -/
def dangerReason (p : RmPattern) : String :=
  "Dangerous rm command detected: matches pattern \x27" ++ p.src ++ "\x27"

/-- The inner loop of `is_dangerous_rm_command`: does any safe-directory
pattern occur in the command (case-sensitively)? -/
def isSafeRm (command : List Char) : Bool :=
  SAFE_RM_DIRECTORIES.any (fun p => containsSub p command)

/-- The outer loop of `is_dangerous_rm_command` over the dangerous patterns:
on a (case-insensitive) match, return `(True, reason)` unless a safe-directory
pattern also occurs, in which case continue with the remaining patterns. -/
def rmLoop (command : List Char) : List RmPattern → Bool × Option String
  | [] => (false, none)
  | p :: rest =>
    if rmPatSearch p.flag p.tgt command then
      if isSafeRm command then rmLoop command rest
      else (true, some (dangerReason p))
    else rmLoop command rest

/-- `is_dangerous_rm_command(command)`. -/
def is_dangerous_rm_command (command : String) : Bool × Option String :=
  rmLoop command.data DANGEROUS_RM_PATTERNS

/-- `is_sensitive_file_access(file_path)`: the allowed (exception) patterns
are tried first; a match returns `(False, None)` unconditionally; otherwise
the sensitive patterns are tried, and a match returns `(True, reason)`.  The
source loops and returns on the first match; since the returned reason does
not depend on which pattern matched, `List.any` is extensionally the same
loop. -/
def is_sensitive_file_access (file_path : String) : Bool × Option String :=
  if ALLOWED_SENSITIVE_PATTERNS.any (fun p => litPatSearchCI p file_path.data) then
    (false, none)
  else if SENSITIVE_FILE_PATTERNS.any (fun p => litPatSearchCI p file_path.data) then
    (true, some ("Sensitive file access detected: " ++ file_path))
  else (false, none)

/-- `tool_input.get(key, "")`: tool inputs are modelled as association lists
of string fields (the only values the validator reads are strings). -/
def getStr (tool_input : List (String × String)) (key : String) : String :=
  match tool_input.lookup key with
  | some v => v
  | none => ""

/-- The second `if` of `validate_tool_use` (reached when the `Bash` check did
not return): the Read/Write/Edit sensitive-file check, then `(True, None)`. -/
def validateFileStep (tool_name : String) (tool_input : List (String × String)) :
    Bool × Option String :=
  if tool_name = "Read" ∨ tool_name = "Write" ∨ tool_name = "Edit" then
    match is_sensitive_file_access (getStr tool_input "file_path") with
    | (true, reason) => (false, reason)
    | (false, _) => (true, none)
  else (true, none)

/-- `validate_tool_use(tool_name, tool_input)`: the `Bash` check returns
`(False, reason)` on a dangerous command; otherwise control falls through to
the Read/Write/Edit check and finally to `(True, None)`. -/
def validate_tool_use (tool_name : String) (tool_input : List (String × String)) :
    Bool × Option String :=
  if tool_name = "Bash" then
    match is_dangerous_rm_command (getStr tool_input "command") with
    | (true, reason) => (false, reason)
    | (false, _) => validateFileStep tool_name tool_input
  else validateFileStep tool_name tool_input

/-! ## `utils/server.py`

The HTTP layer (`urllib.request.urlopen`) and the standard-library JSON
parser (`json.loads`) are external to the repository; they are modelled
abstractly.  A call to `urlopen` either returns a response (which cpython does
exactly for a final status in the 2xx range), raises `HTTPError` for a non-2xx
final status, raises `URLError` for a connect-phase failure (DNS resolution,
refused connection, timeout while connecting or sending: in
`AbstractHTTPHandler.do_open` only `h.request(...)` is wrapped by
`except OSError as err: raise URLError(err)`), or lets `socket.timeout` (alias
of `TimeoutError`) escape unchanged when the timeout fires while reading the
response: `r = h.getresponse()` sits under a bare `except:` that only closes
the connection and re-raises.  `HTTPError` is a subclass of `URLError`, which
determines which `except` clause of `send_event` catches it; `TimeoutError`
is a subclass of `OSError` but NOT of `URLError`, so neither `except` clause
of `send_event` nor the `except (URLError, HTTPError)` of
`check_server_health` catches it.  `json.loads` is passed in as a function
parameter. -/

/-- Python objects produced by `json.loads` (floats omitted; the parser itself
stays abstract, this is only its codomain). -/
inductive PyJson where
  | null
  | bool (b : Bool)
  | int (n : Int)
  | str (s : String)
  | arr (xs : List PyJson)
  | obj (fields : List (String × PyJson))

/-- Outcome of one `urllib.request.urlopen` call.  `timeoutError` is the
read-phase `socket.timeout` / `TimeoutError` escaping `urlopen` unwrapped: it
is an `OSError` but not a `URLError`. -/
inductive Urlopen where
  | ok (status : Nat) (body : String)
  | httpError (code : Nat) (body : String)
  | urlError (reason : String)
  | timeoutError
deriving DecidableEq

/-- What the server does on one request: unreachable at the connect phase, or
accepting the connection but stalling until the client timeout fires while
reading the response, or a (final) response with a status and body. -/
inductive ServerBehavior where
  | unreachable (reason : String)
  | stalls
  | responds (status : Nat) (body : String)
deriving DecidableEq

/-- cpython `urlopen` semantics over a `ServerBehavior`: a response returns
normally iff its status is 2xx (`HTTPErrorProcessor` raises `HTTPError` for
every status outside `200 <= code < 300`); connect-phase unreachability
raises `URLError` (the `except OSError` wrapping of `h.request`); a stalled
response raises the bare `TimeoutError` from `h.getresponse()`, which is not
wrapped in `URLError`. -/
def urlopenModel : ServerBehavior → Urlopen
  | .unreachable r => .urlError r
  | .stalls => .timeoutError
  | .responds status body =>
    if 200 ≤ status ∧ status < 300 then .ok status body
    else .httpError status body

/-- Outcome of `send_event`.  Exception payloads are carried structurally
rather than as formatted message strings: `connectionError` carries the server
URL and the underlying `urllib` error interpolated into
`f"Failed to connect to server at {server_url}: {e}"`, and `valueError`
carries the status and body interpolated into
`f"Server returned error {e.code}: {e.read().decode(...)}"`. -/
inductive SendResult where
  | success (response : PyJson)
  | connectionError (serverUrl : String) (e : Urlopen)
  | valueError (code : Nat) (body : String)
  | jsonDecodeError
  | timeoutRaised
deriving Inhabited

/-- `send_event`, as a function of the `urlopen` outcome for its POST (the
envelope fields only shape the request body, which the abstract outcome
already incorporates) and of the abstract `json.loads`.

The `try` block returns `json.loads` of the response body (an invalid body
propagates `JSONDecodeError`, uncaught).  The `except` clauses are tried in
source order: `except urllib.error.URLError` comes first, and `HTTPError` is a
subclass of `URLError`, so BOTH `urlError` and `httpError` outcomes are caught
there and re-raised as `ConnectionError`; the subsequent
`except urllib.error.HTTPError` clause (raising `ValueError`) is dead code.
A read-phase `TimeoutError` matches neither clause and propagates uncaught. -/
def send_event (server_url : String) (loads : String → Option PyJson) :
    Urlopen → SendResult
  | .ok _ body =>
    match loads body with
    | some v => .success v
    | none => .jsonDecodeError
  | .urlError r => .connectionError server_url (.urlError r)
  | .httpError code body => .connectionError server_url (.httpError code body)
  | .timeoutError => .timeoutRaised

/-- `check_server_health`, as a function of the `urlopen` outcome for its GET:
`some b` means the function returns `b`, `none` means an exception propagates
to the caller.  A normal response yields `response.status == 200`; the
`except (urllib.error.URLError, urllib.error.HTTPError)` clause turns both of
those error outcomes into `False`; a read-phase `TimeoutError` matches
neither exception class and escapes. -/
def check_server_health : Urlopen → Option Bool
  | .ok status _ => some (status == 200)
  | .httpError _ _ => some false
  | .urlError _ => some false
  | .timeoutError => none

/-- `read_stdin_json`, as a function of the stdin content and the abstract
`json.loads`: blank input returns `{}` before parsing; a `JSONDecodeError` is
caught, a warning is printed to stderr, and `{}` is returned. -/
def read_stdin_json (loads : String → Option PyJson) (stdin : String) : PyJson :=
  if (stripStr stdin).isEmpty then .obj []
  else
    match loads stdin with
    | some v => v
    | none => .obj []

/-! ## `utils/source_app.py` -/

/-- `get_truncated_session_id(session_id, length)` (the source defaults
`length` to 8): a falsy (empty) string yields `'unknown'`, otherwise the
slice `session_id[:length]`, i.e. the first `length` characters. -/
def get_truncated_session_id (session_id : String) (length : Nat) : String :=
  if session_id = "" then "unknown" else ⟨session_id.data.take length⟩

/-- Discriminator for the `ValueError` outcome of `send_event`. -/
def isValueErrorResult : SendResult → Bool
  | .valueError _ _ => true
  | _ => false

/-! ## Helper lemmas -/

/-- If a safe-directory pattern occurs in the command, the dangerous-pattern
loop never blocks. -/
theorem rmLoop_of_safe (command : List Char) (h : isSafeRm command = true) :
    ∀ ps : List RmPattern, rmLoop command ps = (false, none) := by
  intro ps
  induction ps with
  | nil => rfl
  | cons p rest ih =>
    simp only [rmLoop]
    by_cases hq : rmPatSearch p.flag p.tgt command = true
    · rw [if_pos hq, if_pos h]
      exact ih
    · rw [if_neg hq]
      exact ih

/-- If no safe-directory pattern occurs and some dangerous pattern matches,
the loop blocks, naming a matching pattern. -/
theorem rmLoop_of_unsafe (command : List Char) (h : isSafeRm command = false) :
    ∀ ps : List RmPattern,
      (∃ p ∈ ps, rmPatSearch p.flag p.tgt command = true) →
      ∃ p ∈ ps, rmPatSearch p.flag p.tgt command = true ∧
        rmLoop command ps = (true, some (dangerReason p)) := by
  intro ps
  induction ps with
  | nil =>
    rintro ⟨p, hp, -⟩
    cases hp
  | cons q rest ih =>
    intro hex
    by_cases hq : rmPatSearch q.flag q.tgt command = true
    · refine ⟨q, List.mem_cons_self q rest, hq, ?_⟩
      simp only [rmLoop]
      rw [if_pos hq, if_neg (by simp [h])]
    · obtain ⟨p, hp, hm⟩ := hex
      rcases List.mem_cons.1 hp with rfl | hp2
      · exact absurd hm hq
      · obtain ⟨p2, hp3, hm2, hr⟩ := ih ⟨p, hp2, hm⟩
        refine ⟨p2, List.mem_cons_of_mem q hp3, hm2, ?_⟩
        simp only [rmLoop]
        rw [if_neg (by simp [hq])]
        exact hr

/-- The dangerous-pattern loop either falls through clean or blocks with the
reason of a pattern from its list. -/
theorem rmLoop_cases (command : List Char) :
    ∀ ps : List RmPattern,
      rmLoop command ps = (false, none) ∨
        ∃ p ∈ ps, rmLoop command ps = (true, some (dangerReason p)) := by
  intro ps
  induction ps with
  | nil => exact Or.inl rfl
  | cons q rest ih =>
    simp only [rmLoop]
    split
    · split
      · rcases ih with h | ⟨p, hp, hr⟩
        · exact Or.inl h
        · exact Or.inr ⟨p, List.mem_cons_of_mem q hp, hr⟩
      · exact Or.inr ⟨q, List.mem_cons_self q rest, rfl⟩
    · rcases ih with h | ⟨p, hp, hr⟩
      · exact Or.inl h
      · exact Or.inr ⟨p, List.mem_cons_of_mem q hp, hr⟩

/-- `is_sensitive_file_access` returns either clean or the path-naming
reason. -/
theorem is_sensitive_cases (path : String) :
    is_sensitive_file_access path = (false, none) ∨
      is_sensitive_file_access path =
        (true, some ("Sensitive file access detected: " ++ path)) := by
  unfold is_sensitive_file_access
  split
  · exact Or.inl rfl
  · split
    · exact Or.inr rfl
    · exact Or.inl rfl

/-- Every dangerous-pattern reason string is non-empty. -/
theorem dangerReason_ne_empty :
    ∀ p ∈ DANGEROUS_RM_PATTERNS, dangerReason p ≠ "" := by decide

/-- Every sensitive-file reason string is non-empty. -/
theorem sensitiveReason_ne_empty (path : String) :
    "Sensitive file access detected: " ++ path ≠ "" := by
  intro h
  have h2 := congrArg String.length h
  rw [String.length_append,
    show ("Sensitive file access detected: " : String).length = 32 from rfl,
    show ("" : String).length = 0 from rfl] at h2
  omega

/-- On Read/Write/Edit, `validate_tool_use` is exactly the sensitive-file
check. -/
theorem validate_rwe (tool : String) (tool_input : List (String × String))
    (ht : tool = "Read" ∨ tool = "Write" ∨ tool = "Edit") :
    validate_tool_use tool tool_input =
      match is_sensitive_file_access (getStr tool_input "file_path") with
      | (true, reason) => (false, reason)
      | (false, _) => (true, none) := by
  have hb : ¬tool = "Bash" := by rcases ht with rfl | rfl | rfl <;> decide
  unfold validate_tool_use
  rw [if_neg hb]
  unfold validateFileStep
  rw [if_pos ht]

/-- The Read/Write/Edit fall-through step satisfies the verdict invariant. -/
theorem validateFileStep_invariant (tool_name : String)
    (tool_input : List (String × String)) :
    ((validateFileStep tool_name tool_input).1 = true ∧
       (validateFileStep tool_name tool_input).2 = none) ∨
      ((validateFileStep tool_name tool_input).1 = false ∧
        ∃ r, (validateFileStep tool_name tool_input).2 = some r ∧ r ≠ "") := by
  unfold validateFileStep
  split
  · rcases is_sensitive_cases (getStr tool_input "file_path") with h | h
    · rw [h]
      exact Or.inl ⟨rfl, rfl⟩
    · rw [h]
      exact Or.inr ⟨rfl, _, rfl, sensitiveReason_ne_empty _⟩
  · exact Or.inl ⟨rfl, rfl⟩

/-! ## Claim theorems -/

/-- C1. The claim says `send_event` raises `ServerRejection` (`ValueError`)
exactly when the server responds with a non-2xx status.  The code disagrees:
its `except urllib.error.URLError` clause precedes the
`except urllib.error.HTTPError` clause, and `HTTPError` is a subclass of
`URLError`, so a non-2xx response (here: 404 with body `"not found"`) is
re-raised as `ConnectionError`, and no outcome at all produces `ValueError`
(the branch is dead code) — contradicting the function docstring, which
promises `ValueError: If server returns an error`. -/
theorem C1_send_event_http_error_misrouted :
    send_event "http://localhost:4000" (fun _ => none)
        (urlopenModel (ServerBehavior.responds 404 "not found")) =
      SendResult.connectionError "http://localhost:4000"
        (Urlopen.httpError 404 "not found") ∧
    ∀ (url : String) (loads : String → Option PyJson) (o : Urlopen),
      isValueErrorResult (send_event url loads o) = false := by
  refine ⟨rfl, ?_⟩
  intro url loads o
  cases o with
  | ok s b =>
    simp only [send_event]
    cases loads b <;> rfl
  | urlError r => rfl
  | httpError c b => rfl
  | timeoutError => rfl

/-- C2. Every command matched by one of the recursive-force-delete regexes
(`-rf`/`-fr`, case-insensitive) is blocked by `evaluate` with a reason naming
a matched dangerous pattern — unless a safe-sandbox substring occurs anywhere
in the command, in which case the verdict is allowed. -/
theorem C2_dangerous_rm_blocked_unless_safe (cmd : String)
    (hd : ∃ p ∈ DANGEROUS_RM_PATTERNS, rmPatMatches p cmd = true) :
    (isSafeRm cmd.data = true →
       validate_tool_use "Bash" [("command", cmd)] = (true, none)) ∧
    (isSafeRm cmd.data = false →
       ∃ p ∈ DANGEROUS_RM_PATTERNS, rmPatMatches p cmd = true ∧
         validate_tool_use "Bash" [("command", cmd)] =
           (false, some (dangerReason p))) := by
  have hget : getStr [("command", cmd)] "command" = cmd := rfl
  simp only [rmPatMatches] at hd
  constructor
  · intro hsafe
    have hloop : is_dangerous_rm_command cmd = (false, none) :=
      rmLoop_of_safe cmd.data hsafe DANGEROUS_RM_PATTERNS
    unfold validate_tool_use
    rw [if_pos rfl, hget, hloop]
    rfl
  · intro hunsafe
    obtain ⟨p, hp, hm, hloop⟩ :=
      rmLoop_of_unsafe cmd.data hunsafe DANGEROUS_RM_PATTERNS hd
    refine ⟨p, hp, hm, ?_⟩
    unfold validate_tool_use
    rw [if_pos rfl, hget,
      show is_dangerous_rm_command cmd = (true, some (dangerReason p)) from hloop]

/-- Witness for C2: `rm -rf /tmp/test` is dangerous-matched but allowed via
the `/tmp/` sandbox override; `rm -rf /` is blocked naming the matched
pattern. -/
theorem C2_dangerous_rm_blocked_unless_safe_witness :
    validate_tool_use "Bash" [("command", "rm -rf /tmp/test")] = (true, none) ∧
    ∃ p ∈ DANGEROUS_RM_PATTERNS, rmPatMatches p "rm -rf /" = true ∧
      validate_tool_use "Bash" [("command", "rm -rf /")] =
        (false, some (dangerReason p)) :=
  ⟨(C2_dangerous_rm_blocked_unless_safe "rm -rf /tmp/test"
      ⟨⟨"rm\\s+-rf\\s+/", [ 'r', 'f' ], [ '/' ]⟩, by decide, by decide⟩).1
      (by decide),
   (C2_dangerous_rm_blocked_unless_safe "rm -rf /"
      ⟨⟨"rm\\s+-rf\\s+/", [ 'r', 'f' ], [ '/' ]⟩, by decide, by decide⟩).2
      (by decide)⟩

/-- C3. For Read/Write/Edit: a path matched by an allowed exception pattern
(`.env.sample$`, `.env.example$`, `.env.template$`, case-insensitive) is
always allowed; otherwise a path ending (case-insensitively) in one of the
sensitive suffixes, or containing `id_rsa`/`id_ed25519`, is blocked with a
reason naming the offending path. -/
theorem C3_sensitive_file_blocked_unless_exception (path : String)
    (tool : String) (ht : tool = "Read" ∨ tool = "Write" ∨ tool = "Edit") :
    (ALLOWED_SENSITIVE_PATTERNS.any (fun p => litPatSearchCI p path.data) = true →
       validate_tool_use tool [("file_path", path)] = (true, none)) ∧
    (ALLOWED_SENSITIVE_PATTERNS.any (fun p => litPatSearchCI p path.data) = false →
       (suffixMatch ".env".data (lowerStr path.data) = true ∨
        suffixMatch ".env.local".data (lowerStr path.data) = true ∨
        suffixMatch ".env.production".data (lowerStr path.data) = true ∨
        suffixMatch "credentials.json".data (lowerStr path.data) = true ∨
        suffixMatch "secrets.json".data (lowerStr path.data) = true ∨
        suffixMatch ".pem".data (lowerStr path.data) = true ∨
        suffixMatch ".key".data (lowerStr path.data) = true ∨
        containsSub "id_rsa".data (lowerStr path.data) = true ∨
        containsSub "id_ed25519".data (lowerStr path.data) = true) →
       validate_tool_use tool [("file_path", path)] =
         (false, some ("Sensitive file access detected: " ++ path))) := by
  have hget : getStr [("file_path", path)] "file_path" = path := rfl
  rw [validate_rwe tool [("file_path", path)] ht, hget]
  constructor
  · intro hallow
    unfold is_sensitive_file_access
    rw [if_pos hallow]
  · intro hallow hcond
    have hs : SENSITIVE_FILE_PATTERNS.any (fun p => litPatSearchCI p path.data)
        = true := by
      simp only [SENSITIVE_FILE_PATTERNS, List.any_cons, List.any_nil,
        litPatSearchCI, Bool.or_eq_true]
      rcases hcond with h | h | h | h | h | h | h | h | h <;> tauto
    unfold is_sensitive_file_access
    rw [if_neg (by simp [hallow]), if_pos hs]

/-- Witness for C3: `.env.sample` is allowed by the exception allowlist;
`.env` is blocked naming the path. -/
theorem C3_sensitive_file_blocked_unless_exception_witness :
    validate_tool_use "Read" [("file_path", ".env.sample")] = (true, none) ∧
    validate_tool_use "Read" [("file_path", ".env")] =
      (false, some ("Sensitive file access detected: " ++ ".env")) :=
  ⟨(C3_sensitive_file_blocked_unless_exception ".env.sample" "Read"
      (Or.inl rfl)).1 (by decide),
   (C3_sensitive_file_blocked_unless_exception ".env" "Read"
      (Or.inl rfl)).2 (by decide) (Or.inl (by decide))⟩

/-- C4. The claim says `check_server_health` returns true exactly for status
200, false for any non-200 status, connection error or timeout, and never
raises to the caller.  The code disagrees on the read-phase timeout: when the
server accepts the connection but stalls, the 2-second timeout fires inside
`h.getresponse()` and `urlopen` lets the raw `socket.timeout`/`TimeoutError`
escape; it is an `OSError` but not a `URLError`, so the
`except (urllib.error.URLError, urllib.error.HTTPError)` clause does not
catch it and `check_server_health` raises to its caller (result `none` in the
embedding) instead of returning false — contradicting the never-raises /
false-on-timeout part of the claim, which the code's catch-and-return-False
structure and the spec clearly intend.  The remaining conjuncts evaluate the
claimed-and-correct cases: exactly 200 gives true; a non-200 status and a
connect-phase failure give false. -/
theorem C4_check_health_timeout_escapes :
    check_server_health (urlopenModel ServerBehavior.stalls) = none ∧
    check_server_health (urlopenModel (ServerBehavior.responds 200 "ok"))
      = some true ∧
    check_server_health (urlopenModel (ServerBehavior.responds 500 "err"))
      = some false ∧
    check_server_health (urlopenModel (ServerBehavior.unreachable "refused"))
      = some false :=
  ⟨rfl, rfl, rfl, rfl⟩

/-- C5. Any tool name outside `{Bash, Read, Write, Edit}` is allowed with no
reason, whatever the tool input holds. -/
theorem C5_other_tools_allowed (tool_name : String)
    (tool_input : List (String × String))
    (h1 : tool_name ≠ "Bash") (h2 : tool_name ≠ "Read")
    (h3 : tool_name ≠ "Write") (h4 : tool_name ≠ "Edit") :
    validate_tool_use tool_name tool_input = (true, none) := by
  unfold validate_tool_use
  rw [if_neg h1]
  unfold validateFileStep
  rw [if_neg (by simp [h2, h3, h4])]

/-- Witness for C5: the `Glob` tool is allowed even with a dangerous-looking
command field. -/
theorem C5_other_tools_allowed_witness :
    validate_tool_use "Glob" [("command", "rm -rf /")] = (true, none) :=
  C5_other_tools_allowed "Glob" [("command", "rm -rf /")]
    (by decide) (by decide) (by decide) (by decide)

/-- C6. The verdict invariant: for every tool name and input, either the
verdict is allowed with no reason, or it is blocked with a non-empty reason
string. -/
theorem C6_verdict_invariant (tool_name : String)
    (tool_input : List (String × String)) :
    ((validate_tool_use tool_name tool_input).1 = true ∧
       (validate_tool_use tool_name tool_input).2 = none) ∨
      ((validate_tool_use tool_name tool_input).1 = false ∧
        ∃ r, (validate_tool_use tool_name tool_input).2 = some r ∧ r ≠ "") := by
  unfold validate_tool_use
  split
  · rcases rmLoop_cases (getStr tool_input "command").data DANGEROUS_RM_PATTERNS
      with h | ⟨p, hp, h⟩
    · rw [show is_dangerous_rm_command (getStr tool_input "command")
          = (false, none) from h]
      exact validateFileStep_invariant tool_name tool_input
    · rw [show is_dangerous_rm_command (getStr tool_input "command")
          = (true, some (dangerReason p)) from h]
      exact Or.inr ⟨rfl, dangerReason p, rfl, dangerReason_ne_empty p hp⟩
  · exact validateFileStep_invariant tool_name tool_input

/-- If the file-path field is empty, the Read/Write/Edit step allows. -/
theorem validateFileStep_of_empty (tool_name : String)
    (tool_input : List (String × String))
    (gf : getStr tool_input "file_path" = "") :
    validateFileStep tool_name tool_input = (true, none) := by
  unfold validateFileStep
  split
  · rw [gf]
    rfl
  · rfl

/-- C7. Missing fields default to the empty string, the empty string matches
no dangerous and no sensitive pattern, and the validator returns allowed (it
fails open, never raising: the embedding is a total function). -/
theorem C7_fails_open_on_missing_fields (tool_name : String)
    (tool_input : List (String × String))
    (hc : tool_input.lookup "command" = none)
    (hf : tool_input.lookup "file_path" = none) :
    is_dangerous_rm_command "" = (false, none) ∧
    is_sensitive_file_access "" = (false, none) ∧
    validate_tool_use tool_name tool_input = (true, none) := by
  have gc : getStr tool_input "command" = "" := by
    unfold getStr
    rw [hc]
  have gf : getStr tool_input "file_path" = "" := by
    unfold getStr
    rw [hf]
  refine ⟨rfl, rfl, ?_⟩
  unfold validate_tool_use
  split
  · rw [gc, show is_dangerous_rm_command "" = (false, none) from rfl]
    show validateFileStep tool_name tool_input = (true, none)
    exact validateFileStep_of_empty tool_name tool_input gf
  · exact validateFileStep_of_empty tool_name tool_input gf

/-- Witness for C7: `Bash` with an empty tool input is allowed. -/
theorem C7_fails_open_on_missing_fields_witness :
    is_dangerous_rm_command "" = (false, none) ∧
    is_sensitive_file_access "" = (false, none) ∧
    validate_tool_use "Bash" [] = (true, none) :=
  C7_fails_open_on_missing_fields "Bash" [] rfl rfl

/-- C8. The dangerous-pattern match is case-insensitive but the safe-sandbox
override is matched case-sensitively: `rm -rf /TMP/x` is blocked (uppercase
`/TMP/` does not trigger the `/tmp/` override), while `rm -rf /tmp/x` is
allowed. -/
theorem C8_safe_override_case_sensitive :
    validate_tool_use "Bash" [("command", "rm -rf /TMP/x")] =
      (false, some
        "Dangerous rm command detected: matches pattern \x27rm\\s+-rf\\s+/\x27") ∧
    validate_tool_use "Bash" [("command", "rm -rf /tmp/x")] = (true, none) := by
  constructor
  · rfl
  · rfl

/-- C9. Session-id truncation: the empty id yields `'unknown'`; a non-empty
id no longer than the display length is returned unchanged; a longer id
yields exactly the first `length` characters, a prefix of the input.  (The
empty id is the one input where the literal `'unknown'` clause overrides the
unchanged clause.) -/
theorem C9_truncation (s : String) (n : Nat) :
    (s = "" → get_truncated_session_id s n = "unknown") ∧
    (s ≠ "" → s.length ≤ n → get_truncated_session_id s n = s) ∧
    (n < s.length →
       get_truncated_session_id s n = ⟨s.data.take n⟩ ∧
       (get_truncated_session_id s n).length = n ∧
       ∃ t, s.data = (get_truncated_session_id s n).data ++ t) := by
  refine ⟨?_, ?_, ?_⟩
  · intro h
    simp only [get_truncated_session_id]
    rw [if_pos h]
  · intro h hle
    simp only [get_truncated_session_id]
    rw [if_neg h, List.take_of_length_le hle]
  · intro hlt
    have hne : s ≠ "" := by
      intro h
      rw [h, show ("" : String).length = 0 from rfl] at hlt
      exact absurd hlt (Nat.not_lt_zero n)
    simp only [get_truncated_session_id]
    rw [if_neg hne]
    refine ⟨rfl, ?_, s.data.drop n, (List.take_append_drop n s.data).symm⟩
    show (s.data.take n).length = n
    rw [List.length_take n s.data]
    exact Nat.min_eq_left (Nat.le_of_lt hlt)

/-- Witness for C9: empty, short and long session identifiers at display
length 8. -/
theorem C9_truncation_witness :
    get_truncated_session_id "" 8 = "unknown" ∧
    get_truncated_session_id "abc" 8 = "abc" ∧
    get_truncated_session_id "abcdefghij" 8 = ⟨"abcdefghij".data.take 8⟩ :=
  ⟨(C9_truncation "" 8).1 rfl,
   (C9_truncation "abc" 8).2.1 (by decide) (by decide),
   ((C9_truncation "abcdefghij" 8).2.2 (by decide)).1⟩

/-- C10. `read_stdin_json` returns the empty mapping for blank input and for
input the JSON parser rejects (the embedding is a total function: the
`JSONDecodeError` is caught, so no fatal error escapes), and returns the
parsed value for input the parser accepts. -/
theorem C10_read_stdin_json (loads : String → Option PyJson) (stdin : String) :
    ((stripStr stdin).isEmpty = true ∨ loads stdin = none →
       read_stdin_json loads stdin = PyJson.obj []) ∧
    ((stripStr stdin).isEmpty = false → ∀ v, loads stdin = some v →
       read_stdin_json loads stdin = v) := by
  constructor
  · rintro (h | h)
    · simp only [read_stdin_json]
      rw [if_pos h]
    · simp only [read_stdin_json, h]
      split
      · rfl
      · rfl
  · intro h v hv
    simp only [read_stdin_json, hv]
    rw [if_neg (by simp [h])]

/-- Witness for C10: rejected input yields the empty mapping; parsed input is
returned as-is. -/
theorem C10_read_stdin_json_witness :
    read_stdin_json (fun _ => none) "not valid json" = PyJson.obj [] ∧
    read_stdin_json (fun _ => some (PyJson.obj [("key", PyJson.str "v")]))
        "irrelevant" = PyJson.obj [("key", PyJson.str "v")] :=
  ⟨(C10_read_stdin_json (fun _ => none) "not valid json").1 (Or.inr rfl),
   (C10_read_stdin_json (fun _ => some (PyJson.obj [("key", PyJson.str "v")]))
      "irrelevant").2 (by decide) (PyJson.obj [("key", PyJson.str "v")]) rfl⟩

end Coach
